import Mathlib

/-!
Shallow embedding of the `serve` normalization layer (multi-runtime HTTP /
WebSocket server adapter). The repository dispatches on the detected host
runtime (Node, Deno, Bun) and wraps each engine's native request, response
and socket representations behind one canonical interface.

Definitions are translated from the source adapters (`bunServe`,
`denoServe`, `nodeServe`, `incomingMessageToRequest`, the socket adapter
constructors and the `serve` dispatcher). Engine-internal behavior that the
adapters delegate to (e.g. the engines' default error responses, Deno's
handling of the abort signal it is handed) is modelled from the engines'
documented semantics, noted in the doc comment of each such definition.
-/

namespace ServeRepo

/-- Runtime identifiers produced by the runtime detector (`@online/runtime`),
as matched by the `serve` dispatcher. -/
inductive Runtime where
  | Node
  | Deno
  | Bun
  | Unknown
  | Browser
deriving DecidableEq, Repr

/-- The three engine-specific serve implementations the dispatcher can invoke. -/
inductive EngineChoice where
  | node
  | deno
  | bun
deriving DecidableEq, Repr

/-- Result of running the `serve` dispatcher: which engine implementation was
invoked (none when the dispatcher threw before invoking any), and the message
of the thrown error when it threw. -/
structure DispatchResult where
  invoked : Option EngineChoice
  thrown : Option String
deriving DecidableEq, Repr

/-- The `serve` entry point's switch over the detected runtime: Node, Deno and
Bun each delegate to their engine implementation; `Unknown` and `Browser`
throw before invoking any engine implementation (hence before any listening
socket is bound, since only the engine implementations bind sockets). -/
def serve : Runtime → DispatchResult
  | .Node => ⟨some .node, none⟩
  | .Deno => ⟨some .deno, none⟩
  | .Bun => ⟨some .bun, none⟩
  | .Unknown => ⟨none, some "Could not determine runtime."⟩
  | .Browser => ⟨none, some "There is not serve for the browser."⟩

/-! ## Upgrade negotiation (`upgradeToWebSocket` capability per engine) -/

/-- `bunServe`'s `upgradeToWebSocket` closure: it calls `server.upgrade(request,
{ data })`, discards the engine's boolean result, and returns `true`
unconditionally. It is installed whether or not a `wsHandler` was configured
(only the `websocket` handler table depends on `wsHandler`). Arguments record
the configuration/engine facts the closure ignores. -/
def bunUpgradeToWebSocket (wsHandlerConfigured : Bool) (engineUpgradeSucceeded : Bool) :
    Except String Bool :=
  .ok true

/-- `nodeServe`'s `upgradeToWebSocket` closure: when no `wsHandler` was
configured, `wss` was never initialized and the closure throws
`"WebSocket server not initialized"`; otherwise it stores the upgrade data on
the request object and returns `true` unconditionally. -/
def nodeUpgradeToWebSocket (wssInitialized : Bool) : Except String Bool :=
  if wssInitialized then .ok true else .error "WebSocket server not initialized"

/-- `denoServe`'s `upgradeToWebSocket` closure: it calls
`Deno.upgradeWebSocket(request)` — which throws when the request is not a
WebSocket upgrade request — attaches the event listeners, and returns `true`.
The engine throw propagates out of the closure; in every non-throwing run the
closure returns `true`, also when no `wsHandler` was configured (the missing
handler is only dereferenced later, inside the event listeners). -/
def denoUpgradeToWebSocket (requestUpgradeable : Bool) : Except String Bool :=
  if requestUpgradeable then .ok true
  else .error "The request is not a websocket upgrade request"

/-! ## Socket events and per-engine dispatch to the configured `wsHandler` -/

/-- The `WebsocketEventType` enum of the source. -/
inductive WebsocketEventType where
  | Message
  | Open
  | Close
  | Error
deriving DecidableEq, Repr

/-- An engine-native socket event for one connection, as delivered by the
engine to whatever callbacks the adapter registered. -/
inductive NativeSocketEvent (Data Err : Type) where
  | Open
  | Message (data : Data)
  | Close
  | Error (err : Err)
deriving DecidableEq, Repr

/-- One invocation of the configured `wsHandler`: the
`IWebSocketHandlerOptions` record the adapters construct (the `websocket`
member is independent of the event payloads and is modelled separately). -/
structure WsHandlerCall (Ctx Data Err : Type) where
  event : WebsocketEventType
  data : Option Data
  error : Option Err
  context : Option Ctx
deriving DecidableEq, Repr

/-- `bunServe`'s `websocket` handler table (present when a `wsHandler` was
configured): `message`, `open` and `close` callbacks dispatch to the
`wsHandler` with `context := ws.data` — the value handed to
`server.upgrade(request, { data })` by `upgradeToWebSocket`. No `error`
callback is registered, so native error events dispatch nothing. -/
def bunWsDispatch {Ctx Data Err : Type} (ctx : Ctx) :
    NativeSocketEvent Data Err → Option (WsHandlerCall Ctx Data Err)
  | .Message d => some ⟨.Message, some d, none, some ctx⟩
  | .Open => some ⟨.Open, none, none, some ctx⟩
  | .Close => some ⟨.Close, none, none, some ctx⟩
  | .Error _ => none

/-- `denoServe`'s event listeners, attached inside `upgradeToWebSocket`:
`open`, `message` and `close` listeners dispatch to the `wsHandler` with
`context := data` — the closure argument of `upgradeToWebSocket`. No `error`
listener is attached, so native error events dispatch nothing. -/
def denoWsDispatch {Ctx Data Err : Type} (ctx : Ctx) :
    NativeSocketEvent Data Err → Option (WsHandlerCall Ctx Data Err)
  | .Open => some ⟨.Open, none, none, some ctx⟩
  | .Message d => some ⟨.Message, some d, none, some ctx⟩
  | .Close => some ⟨.Close, none, none, some ctx⟩
  | .Error _ => none

/-- `nodeServe`'s per-socket listeners registered in the `wss.on("connection")`
handler: `message`, `close` and `error` each dispatch to the `wsHandler` with
the `context` read once from the request's `upgradeData`. The `ws` library
emits no `open` event for server-side sockets and none is subscribed. -/
def nodeWsDispatch {Ctx Data Err : Type} (ctx : Option Ctx) :
    NativeSocketEvent Data Err → Option (WsHandlerCall Ctx Data Err)
  | .Message d => some ⟨.Message, some d, none, ctx⟩
  | .Close => some ⟨.Close, none, none, ctx⟩
  | .Error e => some ⟨.Error, none, some e, ctx⟩
  | .Open => none

/-- The full sequence of `wsHandler` invocations for one Bun connection whose
engine delivers the given native events (Bun itself calls the `open` callback
after a successful handshake, so `Open` appears among the native events). -/
def bunConnectionCalls {Ctx Data Err : Type} (ctx : Ctx)
    (events : List (NativeSocketEvent Data Err)) : List (WsHandlerCall Ctx Data Err) :=
  events.filterMap (bunWsDispatch ctx)

/-- The full sequence of `wsHandler` invocations for one Deno connection. -/
def denoConnectionCalls {Ctx Data Err : Type} (ctx : Ctx)
    (events : List (NativeSocketEvent Data Err)) : List (WsHandlerCall Ctx Data Err) :=
  events.filterMap (denoWsDispatch ctx)

/-- The full sequence of `wsHandler` invocations for one Node connection: the
`connection` handler dispatches the `Open` call itself (with the context read
from `request.upgradeData`) and then the registered listeners handle the
subsequent native events. -/
def nodeConnectionCalls {Ctx Data Err : Type} (upgradeData : Option Ctx)
    (events : List (NativeSocketEvent Data Err)) : List (WsHandlerCall Ctx Data Err) :=
  ⟨.Open, none, none, upgradeData⟩ :: events.filterMap (nodeWsDispatch upgradeData)

/-! ## Canonical socket adapter members (`IRuntimeWebSocket` construction) -/

/-- Mutable state of an engine-native socket at some instant: its native
ready-state number and binary-type string. -/
structure WsState where
  readyState : Nat
  binaryType : String
deriving DecidableEq, Repr

/-- A member of a constructed adapter object: either a callable function
(reading the engine socket's state current at invocation time) or a plain
snapshot value fixed at construction time. Invoking a snapshot member as a
function throws a TypeError at runtime, which `invokeAt` renders as `none`. -/
inductive Member (α : Type) where
  | callable (f : WsState → α)
  | snapshot (v : α)

/-- Whether the member is a function that can be invoked. -/
def Member.isCallable {α : Type} : Member α → Bool
  | .callable _ => true
  | .snapshot _ => false

/-- Invoke the member as a function against the engine socket's current
state; a snapshot member is not a function and the invocation fails. -/
def Member.invokeAt {α : Type} : Member α → WsState → Option α
  | .callable f, s => some (f s)
  | .snapshot _, _ => none

/-- The `readyState` and `binaryType` members of a constructed
`IRuntimeWebSocket` adapter (the `send`, `close` and `getBufferedAmount`
members are modelled separately). -/
structure SocketAdapterView where
  readyState : Member Nat
  binaryType : Member String

/-- `bunWebsocketToRuntimeSocket`: `readyState: () => bunWebsocket.readyState`
and `binaryType: () => bunWebsocket.binaryType` are arrow functions reading
the engine socket at invocation time. -/
def bunWebsocketToRuntimeSocket : SocketAdapterView :=
  { readyState := .callable (fun s => s.readyState)
    binaryType := .callable (fun s => s.binaryType) }

/-- `denoWebsocketToRuntimeSocket`: `readyState: () => denoWebsocket.readyState`
and `binaryType: () => denoWebsocket.binaryType`, arrow functions reading the
engine socket at invocation time. -/
def denoWebsocketToRuntimeSocket : SocketAdapterView :=
  { readyState := .callable (fun s => s.readyState)
    binaryType := .callable (fun s => s.binaryType) }

/-- `nodeServe`'s `runtimeWs` object, built in the `connection` handler:
`readyState: ws.readyState as ...` and `binaryType: ws.binaryType as ...`
assign the values read at construction time, coerced with `as` to the
function types the interface declares. -/
def nodeRuntimeWs (atConstruction : WsState) : SocketAdapterView :=
  { readyState := .snapshot atConstruction.readyState
    binaryType := .snapshot atConstruction.binaryType }

/-! ## `close(code?, reason?)` forwarding -/

/-- One call of an engine's native close primitive, recording the arguments it
received (`none` = the argument was omitted). -/
structure CloseCall where
  code : Option Nat
  reason : Option String
deriving DecidableEq, Repr

/-- The engine-side effective close code: every engine's close primitive
defaults an omitted code to 1000 (normal closure). -/
def effectiveCloseCode (call : CloseCall) : Nat :=
  call.code.getD 1000

/-- `bunWebsocketToRuntimeSocket`'s close member,
`(code?, reason?) => bunWebsocket.close(code, reason)`: forwards both
arguments positionally, unchanged. -/
def bunAdapterClose (code : Option Nat) (reason : Option String) : CloseCall :=
  ⟨code, reason⟩

/-- `denoWebsocketToRuntimeSocket`'s close member,
`(...args) => denoWebsocket.close(...args)`: spreads the received argument
list into the engine primitive, unchanged. -/
def denoAdapterClose (code : Option Nat) (reason : Option String) : CloseCall :=
  ⟨code, reason⟩

/-- `nodeServe`'s `runtimeWs.close`, `(...args) => ws.close(...args)`: spreads
the received argument list into the engine primitive, unchanged. -/
def nodeAdapterClose (code : Option Nat) (reason : Option String) : CloseCall :=
  ⟨code, reason⟩

/-! ## Server teardown: explicit `close()` versus triggered abort signal -/

/-- An operation performed on the listener or the WebSocket server during
teardown. -/
inductive TeardownOp where
  | bunStopForce
  | nodeWssClose
  | nodeServerClose
  | denoShutdown
  | denoSignalCloseAll
deriving DecidableEq, Repr

/-- `bunServe`: `close` is the `stopServer` closure, `() => server.stop(true)`. -/
def bunCloseOps : List TeardownOp := [.bunStopForce]

/-- `bunServe`: the abort listener registered on `options.signal` is the very
same `stopServer` closure. -/
def bunAbortOps : List TeardownOp := [.bunStopForce]

/-- `nodeServe`'s `close`: `wss?.close(); server.close(() => resolve())` —
closes the WebSocket server when one exists, then closes the listener. -/
def nodeCloseOps (hasWss : Bool) : List TeardownOp :=
  (if hasWss then [.nodeWssClose] else []) ++ [.nodeServerClose]

/-- `nodeServe`'s abort listener: `wss?.close(); server.close()` — the same
operations on the WebSocket server and the listener. -/
def nodeAbortOps (hasWss : Bool) : List TeardownOp :=
  (if hasWss then [.nodeWssClose] else []) ++ [.nodeServerClose]

/-- `denoServe`: `close` is `() => server.shutdown()` — the engine's
documented graceful close, which stops the listener but lets pending requests
finish. -/
def denoCloseOps : List TeardownOp := [.denoShutdown]

/-- `denoServe` hands `options.signal` to `Deno.serve` itself and contains no
abort path of its own; by the engine's documented semantics of
`ServeOptions.signal`, aborting that signal closes the server and all its
connections — a different operation from the graceful `shutdown()` (modelled
from the Deno engine's documentation). -/
def denoAbortOps : List TeardownOp := [.denoSignalCloseAll]

/-! ## Node request/response bridge (`incomingMessageToRequest`) -/

/-- What the Node engine's `IncomingMessage` body stream does: either it emits
some data chunks (in order) and then the `end` event, or it fails with an
`error` event. A byte chunk is a list of bytes. -/
inductive BodyStream (Err : Type) where
  | ended (chunks : List (List Nat))
  | errored (e : Err)
deriving DecidableEq, Repr

/-- The Node engine's native incoming request: method, `headers.host`,
request path (`req.url`), full header list, and the behavior of its body
stream. -/
structure IncomingMessage (Err : Type) where
  method : String
  host : String
  url : String
  headers : List (String × String)
  body : BodyStream Err
deriving DecidableEq, Repr

/-- An absolute URL as assembled by the bridge (`new URL(...)` with the
scheme chosen from the TLS configuration). -/
structure AbsoluteUrl where
  scheme : String
  host : String
  path : String
deriving DecidableEq, Repr

/-- The canonical `Request` the bridge constructs: method, absolute URL, the
header list, and the buffered body (`none` when the `Request` is built without
a body). -/
structure CanonicalRequest where
  method : String
  url : AbsoluteUrl
  headers : List (String × String)
  body : Option (List Nat)
deriving DecidableEq, Repr

/-- `incomingMessageToRequest`: builds the absolute URL with scheme `https`
exactly when `options.tls` is set, and `http` otherwise. For `GET` and `HEAD`
it resolves immediately with a body-less `Request`; for every other method it
accumulates the `data` chunks in order, and on `end` resolves with a `Request`
whose body is the `Blob` of the accumulated chunks (their in-order
concatenation); a body stream `error` rejects the promise. -/
def incomingMessageToRequest {Err : Type} (req : IncomingMessage Err) (tls : Bool) :
    Except Err CanonicalRequest :=
  let url : AbsoluteUrl := ⟨if tls then "https" else "http", req.host, req.url⟩
  if req.method = "GET" ∨ req.method = "HEAD" then
    .ok ⟨req.method, url, req.headers, none⟩
  else
    match req.body with
    | .ended chunks => .ok ⟨req.method, url, req.headers, some chunks.flatten⟩
    | .errored e => .error e

/-! ## Handler failure during an HTTP exchange -/

/-- A canonical response reduced to the parts the error-handling claims are
about. -/
structure HttpResponse where
  status : Nat
  body : String
deriving DecidableEq, Repr

/-- The generic server-error response. -/
def internalServerError : HttpResponse := ⟨500, "Internal Server Error"⟩

/-- Outcome of invoking the user-supplied handler: a response, or a thrown
error / rejected promise. -/
inductive HandlerOutcome (Err : Type) where
  | ok (resp : HttpResponse)
  | threw (e : Err)
deriving DecidableEq, Repr

/-- `nodeServe`'s `server.on("request")` callback: everything — the
`incomingMessageToRequest` conversion and the handler invocation — runs inside
one `try`; any error lands in the `catch`, which writes
`res.writeHead(500).end("Internal Server Error")`. The exchange therefore
always produces a written response (`.ok`), never a propagated error. -/
def nodeRequestExchange {Err : Type} (converted : Except Err Unit)
    (handler : HandlerOutcome Err) : Except Err HttpResponse :=
  match converted with
  | .error _ => .ok internalServerError
  | .ok _ =>
    match handler with
    | .threw _ => .ok internalServerError
    | .ok resp => .ok resp

/-- `bunServe`'s `fetch` returns `options.handler(...)` directly, so a
rejection reaches the Bun engine; with no `error` callback configured, the
engine's documented default terminates the exchange with a status-500 response
(modelled from the Bun engine's documentation). -/
def bunRequestExchange {Err : Type} (handler : HandlerOutcome Err) :
    Except Err HttpResponse :=
  match handler with
  | .threw _ => .ok internalServerError
  | .ok resp => .ok resp

/-- `denoServe`'s `handler` awaits `options.handler(...)` and then returns
`request.stupidDenoResponseMember ?? response` (the upgrade response stashed
on the request, when an upgrade happened, else the handler's response). -/
def denoAdapterHandler {Err : Type} (handler : HandlerOutcome Err)
    (upgradeResponse : Option HttpResponse) : HandlerOutcome Err :=
  match handler with
  | .threw e => .threw e
  | .ok resp => .ok (upgradeResponse.getD resp)

/-- A rejection of `denoServe`'s async `handler` reaches the Deno engine;
with no `onError` configured, the engine's documented default terminates the
exchange with a status-500 `"Internal Server Error"` response (modelled from
the Deno engine's documentation). -/
def denoRequestExchange {Err : Type} (handler : HandlerOutcome Err)
    (upgradeResponse : Option HttpResponse) : Except Err HttpResponse :=
  match denoAdapterHandler handler upgradeResponse with
  | .threw _ => .ok internalServerError
  | .ok resp => .ok resp

/-! ## Helper lemmas -/

/-- Every dispatched Bun `wsHandler` call carries the upgrade data as its
context. -/
theorem bun_dispatch_ctx {Ctx Data Err : Type} (ctx : Ctx) :
    ∀ (ev : NativeSocketEvent Data Err) (c : WsHandlerCall Ctx Data Err),
      bunWsDispatch ctx ev = some c → c.context = some ctx := by
  intro ev c h
  cases ev <;> simp [bunWsDispatch] at h <;> exact h ▸ rfl

/-- Every dispatched Deno `wsHandler` call carries the upgrade data as its
context. -/
theorem deno_dispatch_ctx {Ctx Data Err : Type} (ctx : Ctx) :
    ∀ (ev : NativeSocketEvent Data Err) (c : WsHandlerCall Ctx Data Err),
      denoWsDispatch ctx ev = some c → c.context = some ctx := by
  intro ev c h
  cases ev <;> simp [denoWsDispatch] at h <;> exact h ▸ rfl

/-- Every dispatched Node `wsHandler` call carries the request's
`upgradeData` as its context. -/
theorem node_dispatch_ctx {Ctx Data Err : Type} (ud : Option Ctx) :
    ∀ (ev : NativeSocketEvent Data Err) (c : WsHandlerCall Ctx Data Err),
      nodeWsDispatch ud ev = some c → c.context = ud := by
  intro ev c h
  cases ev <;> simp [nodeWsDispatch] at h <;> exact h ▸ rfl

/-- Generic: when every call a dispatch function can produce carries context
`some ctx`, the contexts of a whole connection's dispatched calls are
constantly `some ctx`. -/
theorem calls_context_replicate {Ctx Data Err : Type} (ctx : Ctx)
    (f : NativeSocketEvent Data Err → Option (WsHandlerCall Ctx Data Err))
    (h : ∀ ev c, f ev = some c → c.context = some ctx)
    (events : List (NativeSocketEvent Data Err)) :
    (events.filterMap f).map WsHandlerCall.context
      = List.replicate (events.filterMap f).length (some ctx) := by
  induction events with
  | nil => rfl
  | cons ev rest ih =>
    cases hfe : f ev with
    | none => simpa [List.filterMap_cons, hfe] using ih
    | some c => simp [List.filterMap_cons, hfe, List.replicate_succ, h ev c hfe, ih]

/-! ## Claim theorems -/

/-- Claim C1, counterexample: with no `wsHandler` configured, the Node
adapter's `upgradeToWebSocket` throws (`"WebSocket server not initialized"`)
instead of returning `false`, and the Bun adapter's returns `true` (even
when the engine-level upgrade also failed) — refuting that `upgradeToWebSocket`
returns `false` whenever no `wsHandler` was configured. -/
theorem C1_counterexample :
    nodeUpgradeToWebSocket false = .error "WebSocket server not initialized"
    ∧ nodeUpgradeToWebSocket false ≠ .ok false
    ∧ bunUpgradeToWebSocket false false = .ok true
    ∧ bunUpgradeToWebSocket false false ≠ .ok false := by
  refine ⟨rfl, ?_, rfl, ?_⟩ <;> simp [nodeUpgradeToWebSocket, bunUpgradeToWebSocket]

/-- Claim C1, amended: `upgradeToWebSocket` never returns `false` on any
engine, so its boolean does not report negotiation failure. The Bun adapter
returns `true` unconditionally, discarding the engine upgrade result, even
with no `wsHandler` configured; the Deno adapter returns `true` whenever the
engine upgrade call does not throw, even with no `wsHandler`; the Node adapter
returns `true` when a `wsHandler` was configured and throws
`"WebSocket server not initialized"` when none was. -/
theorem C1_upgrade_result :
    ∀ (wsh eng upg : Bool),
      bunUpgradeToWebSocket wsh eng = .ok true
      ∧ nodeUpgradeToWebSocket wsh =
          (if wsh then .ok true else .error "WebSocket server not initialized")
      ∧ denoUpgradeToWebSocket upg =
          (if upg then .ok true else .error "The request is not a websocket upgrade request")
      ∧ bunUpgradeToWebSocket wsh eng ≠ .ok false
      ∧ nodeUpgradeToWebSocket wsh ≠ .ok false
      ∧ denoUpgradeToWebSocket upg ≠ .ok false := by
  intro wsh eng upg
  cases wsh <;> cases upg <;>
    simp [bunUpgradeToWebSocket, nodeUpgradeToWebSocket, denoUpgradeToWebSocket]

/-- Claim C2: on every engine, every `wsHandler` call dispatched for a
connection carries, in its `context` field, exactly the value the HTTP handler
passed to `upgradeToWebSocket` for that connection (for Bun the upgrade data
attached by `server.upgrade`, for Deno the closure argument, for Node the
request's `upgradeData`), unchanged across the whole event sequence. -/
theorem C2_context_unchanged :
    ∀ (Ctx Data Err : Type) (ctx : Ctx) (events : List (NativeSocketEvent Data Err)),
      (bunConnectionCalls ctx events).map WsHandlerCall.context
          = List.replicate (bunConnectionCalls ctx events).length (some ctx)
      ∧ (denoConnectionCalls ctx events).map WsHandlerCall.context
          = List.replicate (denoConnectionCalls ctx events).length (some ctx)
      ∧ (nodeConnectionCalls (some ctx) events).map WsHandlerCall.context
          = List.replicate (nodeConnectionCalls (some ctx) events).length (some ctx) := by
  intro Ctx Data Err ctx events
  refine ⟨?_, ?_, ?_⟩
  · exact calls_context_replicate ctx (bunWsDispatch ctx) (bun_dispatch_ctx ctx) events
  · exact calls_context_replicate ctx (denoWsDispatch ctx) (deno_dispatch_ctx ctx) events
  · simpa [nodeConnectionCalls, List.replicate_succ] using
      calls_context_replicate ctx (nodeWsDispatch (some ctx)) (node_dispatch_ctx (some ctx)) events

/-- Claim C3: the Bun and Deno adapters expose `readyState` and `binaryType`
as callable functions, but `nodeServe`'s `runtimeWs` assigns the snapshot
values `ws.readyState` / `ws.binaryType` (coerced with `as` to the function
types `IRuntimeWebSocket` declares), so on Node the members are not callable
and invoking them fails — evaluated here at a socket constructed in native
state `⟨1, "nodebuffer"⟩` and invoked at current state `⟨3, "nodebuffer"⟩`. -/
theorem C3_node_members_not_callable :
    (nodeRuntimeWs ⟨1, "nodebuffer"⟩).readyState.isCallable = false
    ∧ (nodeRuntimeWs ⟨1, "nodebuffer"⟩).binaryType.isCallable = false
    ∧ Member.invokeAt (nodeRuntimeWs ⟨1, "nodebuffer"⟩).readyState ⟨3, "nodebuffer"⟩ = none
    ∧ bunWebsocketToRuntimeSocket.readyState.isCallable = true
    ∧ Member.invokeAt bunWebsocketToRuntimeSocket.readyState ⟨3, "nodebuffer"⟩ = some 3
    ∧ denoWebsocketToRuntimeSocket.readyState.isCallable = true
    ∧ Member.invokeAt denoWebsocketToRuntimeSocket.binaryType ⟨3, "blob"⟩ = some "blob" :=
  ⟨rfl, rfl, rfl, rfl, rfl, rfl, rfl⟩

/-- Claim C4, counterexample: the Bun and Deno adapters register no error
callback, so an engine-reported socket error dispatches no SocketEvent there —
refuting that on every engine socket-level errors reach the `wsHandler` as an
Error SocketEvent. Evaluated at context `0` and error cause `0`. -/
theorem C4_counterexample :
    bunWsDispatch (0 : Nat) (NativeSocketEvent.Error (0 : Nat) : NativeSocketEvent Nat Nat) = none
    ∧ denoWsDispatch (0 : Nat) (NativeSocketEvent.Error (0 : Nat) : NativeSocketEvent Nat Nat)
        = none :=
  ⟨rfl, rfl⟩

/-- Claim C4, amended: only the Node adapter surfaces socket-level errors —
its `error` listener dispatches an Error SocketEvent carrying the cause and
the connection context, and the engine's subsequent close event dispatches the
terminal Close SocketEvent; the Bun and Deno adapters register no error
callbacks, so engine-reported socket errors there dispatch no SocketEvent. -/
theorem C4_error_dispatch :
    ∀ (Ctx Data Err : Type) (ctx : Ctx) (e : Err),
      nodeWsDispatch (some ctx) (NativeSocketEvent.Error e : NativeSocketEvent Data Err)
          = some ⟨.Error, none, some e, some ctx⟩
      ∧ (nodeConnectionCalls (some ctx)
            ([.Error e, .Close] : List (NativeSocketEvent Data Err))).map WsHandlerCall.event
          = [.Open, .Error, .Close]
      ∧ bunWsDispatch ctx (NativeSocketEvent.Error e : NativeSocketEvent Data Err) = none
      ∧ denoWsDispatch ctx (NativeSocketEvent.Error e : NativeSocketEvent Data Err) = none := by
  intro Ctx Data Err ctx e
  exact ⟨rfl, rfl, rfl, rfl⟩

/-- Claim C5, counterexample: on the Deno engine the abort-signal path is not
the same stop procedure as `close()` — `close()` invokes the engine's graceful
`shutdown()`, while the abort signal, handed to the engine, closes the server
and all its connections — refuting that on every engine the two teardown
paths perform identical operations. -/
theorem C5_counterexample : denoAbortOps ≠ denoCloseOps := by
  decide

/-- Claim C5, amended: on Bun and Node the abort-signal path performs exactly
the same teardown operations as `close()` (Bun wires both to the identical
`stopServer` closure; Node runs `wss?.close(); server.close()` on both paths,
on the WebSocket server when present and the listener); on Deno the two paths
differ — `close()` is the engine's graceful `shutdown()`, while the abort
signal is delegated to the engine, whose documented abort closes the server
and all its connections. -/
theorem C5_teardown_paths :
    ∀ hasWss : Bool,
      bunAbortOps = bunCloseOps
      ∧ nodeAbortOps hasWss = nodeCloseOps hasWss
      ∧ denoAbortOps ≠ denoCloseOps :=
  fun _ => ⟨rfl, rfl, by decide⟩

/-- Claim C6: with the runtime detected as `Unknown`, `serve` throws
`"Could not determine runtime."` without invoking any engine-specific serve
implementation (so no listening socket is bound). -/
theorem C6_unknown_runtime_throws :
    serve Runtime.Unknown
      = { invoked := none, thrown := some "Could not determine runtime." } :=
  rfl

/-- Claim C7: the Node bridge preserves the method and the header set,
builds an absolute URL whose scheme is `https` exactly when TLS is configured
(`http` otherwise), gives every request with a method other than `GET`/`HEAD`
a body equal to the in-order concatenation of the data chunks received before
the `end` event, and builds `GET`/`HEAD` requests without a body. -/
theorem C7_node_bridge :
    ∀ (Err : Type) (method host url : String) (headers : List (String × String))
      (chunks : List (List Nat)) (tls : Bool),
      incomingMessageToRequest
          (⟨method, host, url, headers, .ended chunks⟩ : IncomingMessage Err) tls
        = .ok ⟨method, ⟨if tls then "https" else "http", host, url⟩, headers,
            if method = "GET" ∨ method = "HEAD" then none else some chunks.flatten⟩ := by
  intro Err method host url headers chunks tls
  by_cases h : method = "GET" ∨ method = "HEAD" <;> simp [incomingMessageToRequest, h]

/-- Claim C8: every engine adapter forwards `close(code?, reason?)` arguments
verbatim to the engine's native close primitive, and when both are omitted the
engine-side default close code 1000 applies. -/
theorem C8_close_forwarding :
    ∀ (code : Option Nat) (reason : Option String),
      bunAdapterClose code reason = ⟨code, reason⟩
      ∧ denoAdapterClose code reason = ⟨code, reason⟩
      ∧ nodeAdapterClose code reason = ⟨code, reason⟩
      ∧ effectiveCloseCode (bunAdapterClose none none) = 1000
      ∧ effectiveCloseCode (denoAdapterClose none none) = 1000
      ∧ effectiveCloseCode (nodeAdapterClose none none) = 1000 :=
  fun _ _ => ⟨rfl, rfl, rfl, rfl, rfl, rfl⟩

/-- Claim C9: on every engine, a handler that throws (or whose promise
rejects) terminates that HTTP exchange with the generic status-500 response,
and the error is not propagated out of the exchange (the exchange result is a
normally delivered response, `.ok`, never `.error`), leaving the `serve`
caller unaffected. -/
theorem C9_handler_error_500 :
    ∀ (Err : Type) (e : Err) (conv : Except Err Unit) (upgr : Option HttpResponse),
      nodeRequestExchange conv (.threw e) = .ok internalServerError
      ∧ bunRequestExchange (HandlerOutcome.threw e) = .ok internalServerError
      ∧ denoRequestExchange (HandlerOutcome.threw e) upgr = .ok internalServerError
      ∧ internalServerError.status = 500 := by
  intro Err e conv upgr
  refine ⟨?_, rfl, rfl, rfl⟩
  cases conv <;> rfl

/-- Claim C10: with the runtime detected as `Browser`, `serve` throws
`"There is not serve for the browser."` without invoking any engine
implementation, a failure distinct from the unknown-runtime error. -/
theorem C10_browser_throws :
    serve Runtime.Browser
        = { invoked := none, thrown := some "There is not serve for the browser." }
    ∧ serve Runtime.Browser ≠ serve Runtime.Unknown := by
  refine ⟨rfl, ?_⟩
  simp [serve]

end ServeRepo
